import Mathlib

/-! Verification of the resilient-marinas data-import core.

Shallow embedding of the import-tracking / retry / validation engine:

* `src/data_import_logger.py` — `ImportStage`, `ImportStatus`,
  `TableImportMetrics`, `SystemImportSummary`, `DataImportLogger`.
* `src/error_handler.py` — `ErrorHandler.handle_staging_insert`,
  `ErrorHandler._insert_row_by_row`, `ErrorHandler.handle_merge_operation`.
* `src/data_validator.py` — `DataValidator.validate_table_import`,
  `validate_merge_operation`, `check_referential_integrity` and its
  row-count / id-existence / null-count helper queries.

Modelling conventions:

* Python `int` is modelled as `Int`; lengths are cast where needed.
* Python `dict` fields (`stage_errors`, `tables`) are modelled as
  association lists with dict update semantics (update in place on an
  existing key, append on a new key — insertion order preserved).
* `datetime.now()` is modelled by an explicit `now : Nat` argument;
  timestamps are `Option Nat`.
* A Python exception raised past a function boundary is the `.error`
  branch of an `Except` result; an operation that may raise after it has
  already mutated the tracker returns the post-mutation state alongside
  the `Except`.
* Log output (`self.logger.…`) has no observable effect on the data
  model and is not modelled; the Python `,`-grouping of numbers inside
  log/issue strings is rendered as plain `toString`.
-/

set_option autoImplicit false

/-- Python `ImportStage` enum of `data_import_logger.py`. -/
inductive ImportStage where
  | csvExtraction
  | stagingInsert
  | mergeOperation
  | validation
  deriving DecidableEq, Repr

/-- Python `ImportStatus` enum of `data_import_logger.py`. -/
inductive ImportStatus where
  | success
  | warning
  | error
  | skipped
  deriving DecidableEq, Repr

/-- Dict from `ImportStage` to error-message lists, as an association list
(Python `Dict[ImportStage, List[str]]`). -/
abbrev StageErrors := List (ImportStage × List String)

/-- Dict update used by `TableImportMetrics.add_error`: append `msg` to the
list under `stage` if present, otherwise add a new `(stage, [msg])` entry at
the end (Python dict insertion-order semantics). -/
def StageErrors.push : StageErrors → ImportStage → String → StageErrors
  | [], stage, msg => [(stage, [msg])]
  | (k, v) :: rest, stage, msg =>
      if k = stage then (k, v ++ [msg]) :: rest
      else (k, v) :: StageErrors.push rest stage msg

/-- Python `TableImportMetrics` dataclass of `data_import_logger.py`. -/
structure TableImportMetrics where
  table_name : String
  csv_file : String
  csv_row_count : Int := 0
  staging_inserted : Int := 0
  staging_errors : Int := 0
  merge_matched : Int := 0
  merge_inserted : Int := 0
  merge_updated : Int := 0
  merge_errors : Int := 0
  validation_passed : Bool := false
  validation_issues : List String := []
  stage_errors : StageErrors := []
  start_time : Option Nat := none
  end_time : Option Nat := none
  deriving DecidableEq, Repr

/-- Method `TableImportMetrics.add_error` of `data_import_logger.py`. -/
def TableImportMetrics.add_error (m : TableImportMetrics) (stage : ImportStage)
    (error_msg : String) : TableImportMetrics :=
  { m with stage_errors := m.stage_errors.push stage error_msg }

/-- Method `TableImportMetrics.get_status` of `data_import_logger.py`:

```python
if self.stage_errors:
    if any(self.stage_errors.values()):
        return ImportStatus.ERROR
if self.validation_issues:
    return ImportStatus.WARNING
if self.staging_inserted == 0:
    return ImportStatus.SKIPPED
return ImportStatus.SUCCESS
```

(the nested `if` falls through when the dict is non-empty but every stored
list is empty). -/
def TableImportMetrics.get_status (m : TableImportMetrics) : ImportStatus :=
  if !m.stage_errors.isEmpty && m.stage_errors.any (fun p => !p.2.isEmpty) then
    ImportStatus.error
  else if !m.validation_issues.isEmpty then
    ImportStatus.warning
  else if m.staging_inserted = 0 then
    ImportStatus.skipped
  else
    ImportStatus.success

/-- Sum of the stage error-list lengths of one table, as accumulated by
`SystemImportSummary.add_table` (`for errors in metrics.stage_errors.values():
total_errors += len(errors)`). -/
def TableImportMetrics.errorTotal (m : TableImportMetrics) : Int :=
  (m.stage_errors.map (fun p => (p.2.length : Int))).sum

/-- Dict from table name to metrics, as an association list
(Python `Dict[str, TableImportMetrics]`). -/
abbrev TableDict := List (String × TableImportMetrics)

/-- Dict assignment `self.tables[metrics.table_name] = metrics`: replace in
place on an existing key, append on a new key. -/
def TableDict.set : TableDict → String → TableImportMetrics → TableDict
  | [], k, v => [(k, v)]
  | (k', v') :: rest, k, v =>
      if k' = k then (k, v) :: rest
      else (k', v') :: TableDict.set rest k v

/-- Python `SystemImportSummary` dataclass of `data_import_logger.py`. -/
structure SystemImportSummary where
  system_name : String
  tables : TableDict := []
  start_time : Option Nat := none
  end_time : Option Nat := none
  total_csv_rows : Int := 0
  total_staging_inserted : Int := 0
  total_merge_updates : Int := 0
  total_merge_inserts : Int := 0
  total_errors : Int := 0
  total_warnings : Int := 0
  deriving DecidableEq, Repr

/-- Method `SystemImportSummary.add_table` of `data_import_logger.py`: store the
metrics under its table name (overwriting any previous entry) and add the
per-table fields into the running totals unconditionally. -/
def SystemImportSummary.add_table (s : SystemImportSummary)
    (metrics : TableImportMetrics) : SystemImportSummary :=
  { s with
    tables := s.tables.set metrics.table_name metrics
    total_csv_rows := s.total_csv_rows + metrics.csv_row_count
    total_staging_inserted := s.total_staging_inserted + metrics.staging_inserted
    total_merge_updates := s.total_merge_updates + metrics.merge_updated
    total_merge_inserts := s.total_merge_inserts + metrics.merge_inserted
    total_errors := s.total_errors + metrics.errorTotal
    total_warnings := s.total_warnings + (metrics.validation_issues.length : Int) }

/-- State of `DataImportLogger`: the two hard-coded system summaries and the
single open-record slot. -/
structure DataImportLogger where
  molo_summary : SystemImportSummary
  stellar_summary : SystemImportSummary
  current_metrics : Option TableImportMetrics
  deriving DecidableEq, Repr

/-- Constructor `DataImportLogger.__init__`. -/
def DataImportLogger.init : DataImportLogger :=
  { molo_summary := { system_name := "MOLO" }
    stellar_summary := { system_name := "Stellar" }
    current_metrics := none }

/-- Which of the two summaries `_get_summary` selects. -/
inductive SystemSel where
  | molo
  | stellar
  deriving DecidableEq, Repr

/-- Python `str.upper()`, modelled character-wise. -/
def pyUpper (s : String) : String :=
  { data := s.data.map Char.toUpper }

/-- Method `DataImportLogger._get_summary`: selects a summary by the upper-cased
system name, raising `ValueError` (`.error`) for anything else. -/
def DataImportLogger.get_summary (system_name : String) : Except String SystemSel :=
  if pyUpper system_name = "MOLO" then Except.ok SystemSel.molo
  else if pyUpper system_name = "STELLAR" then Except.ok SystemSel.stellar
  else Except.error ("Unknown system: " ++ system_name)

/-- Apply `f` to the selected summary. -/
def DataImportLogger.updateSel (s : DataImportLogger) (sel : SystemSel)
    (f : SystemImportSummary → SystemImportSummary) : DataImportLogger :=
  match sel with
  | SystemSel.molo => { s with molo_summary := f s.molo_summary }
  | SystemSel.stellar => { s with stellar_summary := f s.stellar_summary }

/-- Method `DataImportLogger.start_system_import`: `_get_summary` may raise before
any mutation; on success the summary's start time is set. -/
def DataImportLogger.start_system_import (s : DataImportLogger)
    (system_name : String) (now : Nat) : Except String Unit × DataImportLogger :=
  match DataImportLogger.get_summary system_name with
  | Except.error e => (Except.error e, s)
  | Except.ok sel =>
      (Except.ok (), s.updateSel sel (fun sum => { sum with start_time := some now }))

/-- Method `DataImportLogger.end_system_import`: `_get_summary` may raise before any
mutation; on success the summary's end time is set. -/
def DataImportLogger.end_system_import (s : DataImportLogger)
    (system_name : String) (now : Nat) : Except String Unit × DataImportLogger :=
  match DataImportLogger.get_summary system_name with
  | Except.error e => (Except.error e, s)
  | Except.ok sel =>
      (Except.ok (), s.updateSel sel (fun sum => { sum with end_time := some now }))

/-- Method `DataImportLogger.start_table_import`: unconditionally replaces the open
record with a fresh `TableImportMetrics`; the `system_name` argument is never
consulted (no `_get_summary` call), so this never raises. -/
def DataImportLogger.start_table_import (s : DataImportLogger)
    (_system_name table_name csv_file : String) (csv_row_count : Int)
    (now : Nat) : DataImportLogger :=
  { s with
    current_metrics := some
      { table_name := table_name
        csv_file := csv_file
        csv_row_count := csv_row_count
        start_time := some now } }

/-- Method `DataImportLogger.end_table_import`: returns silently when no record is
open; otherwise sets the open record's end time, then looks up the summary
(`_get_summary` may raise `ValueError` at this point, after the end-time
mutation, leaving the record open), folds the record in and clears the
open-record slot. -/
def DataImportLogger.end_table_import (s : DataImportLogger)
    (system_name : String) (now : Nat) : Except String Unit × DataImportLogger :=
  match s.current_metrics with
  | none => (Except.ok (), s)
  | some m =>
      let m' := { m with end_time := some now }
      let s' := { s with current_metrics := some m' }
      match DataImportLogger.get_summary system_name with
      | Except.error e => (Except.error e, s')
      | Except.ok sel =>
          let s'' := s'.updateSel sel (fun sum => sum.add_table m')
          (Except.ok (), { s'' with current_metrics := none })

/-- Method `DataImportLogger.log_staging_insert`: no-op when no record is open. -/
def DataImportLogger.log_staging_insert (s : DataImportLogger)
    (inserted_count error_count : Int) : DataImportLogger :=
  match s.current_metrics with
  | none => s
  | some m =>
      { s with
        current_metrics := some { m with
                                  staging_inserted := inserted_count
                                  staging_errors := error_count } }

/-- Method `DataImportLogger.log_merge_operation`: no-op when no record is open. -/
def DataImportLogger.log_merge_operation (s : DataImportLogger)
    (matched inserted updated error_count : Int) : DataImportLogger :=
  match s.current_metrics with
  | none => s
  | some m =>
      { s with
        current_metrics := some { m with
                                  merge_matched := matched
                                  merge_inserted := inserted
                                  merge_updated := updated
                                  merge_errors := error_count } }

/-- Method `DataImportLogger.log_validation_result`: no-op when no record is open;
`issues` defaults to `None` and a falsy (absent or empty) list is not
appended. -/
def DataImportLogger.log_validation_result (s : DataImportLogger)
    (passed : Bool) (issues : Option (List String)) : DataImportLogger :=
  match s.current_metrics with
  | none => s
  | some m =>
      let m' := { m with validation_passed := passed }
      let m'' :=
        match issues with
        | some is =>
            if is.isEmpty then m'
            else { m' with validation_issues := m'.validation_issues ++ is }
        | none => m'
      { s with current_metrics := some m'' }

/-- Method `DataImportLogger.add_error`: no-op when no record is open. -/
def DataImportLogger.add_error (s : DataImportLogger) (stage : ImportStage)
    (error_msg : String) : DataImportLogger :=
  match s.current_metrics with
  | none => s
  | some m =>
      { s with current_metrics := some (m.add_error stage error_msg) }

/-! Embedding of `src/error_handler.py` — staging insert with fallback, merge execution.

The insert/merge operations interact with the database through callables
that either succeed or raise.  `oracledb.DatabaseError` (the *expected
data-access failure* class) is `DbFault.databaseError`; any other Python
exception is `DbFault.unexpected`. -/

/-- Fault raised by a data-access callable: the recognized
`oracledb.DatabaseError` class versus any other exception. -/
inductive DbFault where
  | databaseError (msg : String)
  | unexpected (msg : String)
  deriving DecidableEq, Repr

/-- An insert-operation capability: takes a batch of rows, succeeds or
raises a `DbFault`. -/
abbrev InsertOp (α : Type) := List α → Except DbFault Unit

/-- Method `ErrorHandler._insert_row_by_row`: attempt every row independently with
a one-row batch, counting successes and failures; any exception on a row is
caught and counted (the first-5 detail logging has no effect on the result).
Returns the `(success_count, error_count)` pair together with the trace of
batches passed to `operation`, in call order. -/
def ErrorHandler.insert_row_by_row {α : Type} (operation : InsertOp α) :
    List α → (Nat × Nat) × List (List α)
  | [] => ((0, 0), [])
  | row :: rest =>
      let tail := ErrorHandler.insert_row_by_row operation rest
      match operation [row] with
      | Except.ok _ => ((tail.1.1 + 1, tail.1.2), [row] :: tail.2)
      | Except.error _ => ((tail.1.1, tail.1.2 + 1), [row] :: tail.2)

/-- Method `ErrorHandler.handle_staging_insert`: empty batch returns `(0, 0)` with
no call; otherwise one bulk call, falling back to row-by-row on
`oracledb.DatabaseError`, and wrapping anything else in a raised
`StagingInsertError` (the `.error` branch).  The second component is the
trace of batches passed to `operation`, in call order. -/
def ErrorHandler.handle_staging_insert {α : Type} (table_name : String)
    (operation : InsertOp α) (data_rows : List α) :
    Except String (Nat × Nat) × List (List α) :=
  if data_rows.isEmpty then (Except.ok (0, 0), [])
  else
    match operation data_rows with
    | Except.ok _ => (Except.ok (data_rows.length, 0), [data_rows])
    | Except.error (DbFault.databaseError _) =>
        let fallback := ErrorHandler.insert_row_by_row operation data_rows
        (Except.ok fallback.1, data_rows :: fallback.2)
    | Except.error (DbFault.unexpected msg) =>
        (Except.error ("Failed to insert into " ++ table_name ++ ": " ++ msg),
         [data_rows])

/-- Connection-level calls observable on the merge path. -/
inductive DbAction where
  | commit
  | rollback
  deriving DecidableEq, Repr

/-- The dict returned by `ErrorHandler.handle_merge_operation`
(`error_message` is present only on the expected-failure path). -/
structure MergeOutcome where
  matched : Int
  inserted : Int
  updated : Int
  errors : Int
  success : Bool
  error_message : Option String
  deriving DecidableEq, Repr

/-- Computation `display_name = table_name or procedure_name` (a falsy — absent or
empty — table name falls back to the procedure name). -/
def ErrorHandler.mergeDisplayName (procedure_name : String)
    (table_name : Option String) : String :=
  match table_name with
  | some t => if t = "" then procedure_name else t
  | none => procedure_name

/-- Method `ErrorHandler.handle_merge_operation`: executing the named routine
(`BEGIN proc; END;` plus the `rowcount` read) is modelled as one
`Except DbFault Int` outcome.  Success commits and returns the affected-row
count as `matched`; `oracledb.DatabaseError` rolls back and *returns* a
structured failure dict; any other exception rolls back and *raises*
`MergeOperationError` (the `.error` branch).  The second component is the
trace of connection calls. -/
def ErrorHandler.handle_merge_operation (procedure_name : String)
    (table_name : Option String) (mergeExec : Except DbFault Int) :
    Except String MergeOutcome × List DbAction :=
  match mergeExec with
  | Except.ok row_count =>
      (Except.ok { matched := row_count, inserted := 0, updated := 0,
                   errors := 0, success := true, error_message := none },
       [DbAction.commit])
  | Except.error (DbFault.databaseError msg) =>
      (Except.ok { matched := 0, inserted := 0, updated := 0,
                   errors := 1, success := false, error_message := some msg },
       [DbAction.rollback])
  | Except.error (DbFault.unexpected msg) =>
      (Except.error ("Failed to merge "
          ++ ErrorHandler.mergeDisplayName procedure_name table_name
          ++ ": " ++ msg),
       [DbAction.rollback])

/-! Embedding of `src/data_validator.py` — consistency checks.

The borrowed data-access capability is modelled by the outcome of each
query shape the validator issues: a `COUNT(*)` (whose `fetchone()` may also
return no row, hence `Option Int`), the id-existence `IN`-list query, the
null-id count and the referential-integrity orphan count.  An `.error`
outcome is a Python exception raised by `cursor.execute`/`fetchone`. -/

/-- Query outcomes offered by the data-access capability. -/
structure Db where
  rowCount : String → Except String (Option Int)
  idsFound : String → String → List String → Except String (List String)
  nullIdCount : String → String → Except String (Option Int)
  refOrphanCount : String → String → String → String → Except String (Option Int)

/-- Method `DataValidator._get_row_count`: `result[0] if result else 0`, and any
exception is caught (a warning is logged) and replaced by `0` — it is *not*
converted into a validation issue. -/
def DataValidator.get_row_count (db : Db) (table_name : String) : Int :=
  match db.rowCount table_name with
  | Except.ok (some n) => n
  | Except.ok none => 0
  | Except.error _ => 0

/-- Method `DataValidator._check_ids_exist`: empty id list short-circuits to `[]`;
otherwise the ids absent from the query result are returned; any exception
is caught and replaced by `[]` (no missing ids reported). -/
def DataValidator.check_ids_exist (db : Db) (table_name id_column : String)
    (ids : List String) : List String :=
  if ids.isEmpty then []
  else
    match db.idsFound table_name id_column ids with
    | Except.ok found => ids.filter (fun i => !found.contains i)
    | Except.error _ => []

/-- Method `DataValidator._count_null_ids`: like `_get_row_count`, exceptions are
caught and replaced by `0`. -/
def DataValidator.count_null_ids (db : Db) (table_name id_column : String) : Int :=
  match db.nullIdCount table_name id_column with
  | Except.ok (some n) => n
  | Except.ok none => 0
  | Except.error _ => 0

/-- One parsed CSV row: column name to string value (from `csv.DictReader`). -/
abbrev CsvRow := List (String × String)

/-- Lookup `row.get(k)` restricted to truthy values: a missing or empty-string
value is `none`. -/
def CsvRow.truthyGet (row : CsvRow) (k : String) : Option String :=
  match row.find? (fun p => p.1 == k) with
  | some p => if p.2 = "" then none else some p.2
  | none => none

/-- Expression `row.get(id_column) or row.get('Id')`, as used both to build and to
filter the sampled ids (a falsy value under the primary spelling falls back
to the `Id` spelling; rows with no truthy id under either are dropped). -/
def CsvRow.sampleId (id_column : String) (row : CsvRow) : Option String :=
  match row.truthyGet id_column with
  | some v => some v
  | none => row.truthyGet "Id"

/-- Issue text for a source/staging row-count mismatch (`:,` digit grouping
elided). -/
def rowCountMismatchMsg (csv_count staging_count : Int) : String :=
  "Row count mismatch: CSV=" ++ toString csv_count
    ++ ", Staging=" ++ toString staging_count
    ++ " (difference: " ++ toString (csv_count - staging_count).natAbs ++ ")"

/-- Issue text for the warehouse trailing staging. -/
def dwFewerMsg (staging_count dw_count : Int) : String :=
  "DW has fewer rows than staging: Staging=" ++ toString staging_count
    ++ ", DW=" ++ toString dw_count

/-- Issue text for sampled ids missing from the warehouse. -/
def missingIdsMsg (missing : List String) : String :=
  "Sample IDs not found in DW: " ++ toString missing

/-- Issue text for null ids in staging. -/
def nullIdsMsg (null_id_count : Int) (id_column : String) : String :=
  toString null_id_count ++ " records with NULL " ++ id_column ++ " in staging"

/-- Method `DataValidator.validate_table_import`.  The CSV parsing of the Python
function is external; the embedding receives the parsed rows.  An empty
source returns `(true, [])` before any query.  Otherwise the four checks
run in order (row-count match, warehouse-vs-staging count, first-5 sampled
ids present in the warehouse, null staging ids) and the call passes iff no
issue was emitted.  The body cannot raise — every query helper swallows its
own exceptions — so the function's outer `except` branch is unreachable. -/
def DataValidator.validate_table_import (db : Db) (csv_rows : List CsvRow)
    (staging_table dw_table id_column : String) : Bool × List String :=
  let csv_count : Int := csv_rows.length
  if csv_count = 0 then (true, [])
  else
    let staging_count := DataValidator.get_row_count db staging_table
    let dw_count := DataValidator.get_row_count db dw_table
    let countIssues :=
      if csv_count ≠ staging_count then
        [rowCountMismatchMsg csv_count staging_count]
      else []
    let dwIssues :=
      if staging_count > 0 ∧ dw_count < staging_count then
        [dwFewerMsg staging_count dw_count]
      else []
    let sample_ids := (csv_rows.take 5).filterMap (CsvRow.sampleId id_column)
    let sampleIssues :=
      if sample_ids.isEmpty then []
      else
        let missing := DataValidator.check_ids_exist db dw_table id_column sample_ids
        if missing.isEmpty then [] else [missingIdsMsg missing]
    let null_id_count := DataValidator.count_null_ids db staging_table id_column
    let nullIssues :=
      if null_id_count > 0 then [nullIdsMsg null_id_count id_column] else []
    let issues := countIssues ++ dwIssues ++ sampleIssues ++ nullIssues
    (issues.isEmpty, issues)

/-- Issue text for staging records missing from the warehouse. -/
def mergeNotAllMsg (staging_count dw_count : Int) : String :=
  "Not all staging records in DW: Staging=" ++ toString staging_count
    ++ ", DW=" ++ toString dw_count

/-- Issue text for an expected-count mismatch after a merge. -/
def mergeCountMismatchMsg (expected_total staging_count : Int) : String :=
  "Merge count mismatch: Expected=" ++ toString expected_total
    ++ ", Staging=" ++ toString staging_count

/-- Method `DataValidator.validate_merge_operation`: staging-vs-warehouse count
check, plus (when either expected count is supplied) an expected-total
check against the staging count (`expected_updates or 0` +
`expected_inserts or 0`).  As in `validate_table_import`, the count helper
swallows exceptions, so the body cannot raise. -/
def DataValidator.validate_merge_operation (db : Db)
    (staging_table dw_table : String)
    (expected_updates expected_inserts : Option Int) : Bool × List String :=
  let staging_count := DataValidator.get_row_count db staging_table
  let dw_count := DataValidator.get_row_count db dw_table
  let countIssues :=
    if staging_count > dw_count then [mergeNotAllMsg staging_count dw_count]
    else []
  let expectedIssues :=
    if expected_updates.isSome || expected_inserts.isSome then
      let expected_total := expected_updates.getD 0 + expected_inserts.getD 0
      if expected_total ≠ staging_count then
        [mergeCountMismatchMsg expected_total staging_count]
      else []
    else []
  let issues := countIssues ++ expectedIssues
  (issues.isEmpty, issues)

/-- Issue text reporting the orphan count. -/
def orphanMsg (orphan_count : Int)
    (child_table foreign_key parent_table parent_key : String) : String :=
  toString orphan_count ++ " orphaned records in " ++ child_table
    ++ " (" ++ foreign_key ++ " references missing "
    ++ parent_table ++ "." ++ parent_key ++ ")"

/-- Issue text for an exception inside the referential-integrity check. -/
def riExcMsg (e : String) : String :=
  "Referential integrity check exception: " ++ e

/-- Method `DataValidator.check_referential_integrity`: runs the orphan-count
query directly inside its own `try`, so here — unlike the helper-based
checks — an exception *is* converted into a single issue with
`passed = false`. -/
def DataValidator.check_referential_integrity (db : Db)
    (child_table parent_table foreign_key parent_key : String) :
    Bool × List String :=
  match db.refOrphanCount child_table parent_table foreign_key parent_key with
  | Except.error e => (false, [riExcMsg e])
  | Except.ok result =>
      let orphan_count : Int :=
        match result with
        | some n => n
        | none => 0
      let issues :=
        if orphan_count > 0 then
          [orphanMsg orphan_count child_table foreign_key parent_table parent_key]
        else []
      (issues.isEmpty, issues)

/-- Denotation of the orphan-count query text built at
`data_validator.py:298-307`: the number of child rows whose foreign-key
value is non-null (`c.fk IS NOT NULL`) and matches no parent row's key
(`NOT EXISTS (... WHERE p.pk = c.fk)`). -/
def orphanCount (childFks : List (Option String)) (parentKeys : List String) : Nat :=
  (childFks.filter (fun fk =>
    match fk with
    | none => false
    | some v => !parentKeys.contains v)).length

/-- A data-access capability over concrete child/parent table contents,
answering the referential-integrity query with its denotation. -/
def Db.ofTables (childFks : List (Option String)) (parentKeys : List String) : Db :=
  { rowCount := fun _ => Except.ok none
    idsFound := fun _ _ _ => Except.ok []
    nullIdCount := fun _ _ => Except.ok none
    refOrphanCount := fun _ _ _ _ =>
      Except.ok (some ((orphanCount childFks parentKeys : Nat) : Int)) }

/-- A data-access capability every query of which raises. -/
def Db.raising : Db :=
  { rowCount := fun _ => Except.error "ORA-00942: table or view does not exist"
    idsFound := fun _ _ _ => Except.error "ORA-00942: table or view does not exist"
    nullIdCount := fun _ _ => Except.error "ORA-00942: table or view does not exist"
    refOrphanCount := fun _ _ _ _ =>
      Except.error "ORA-00942: table or view does not exist" }

/-! Theorems. -/

/-- Claim C1: for every (finalized) `TableImportMetrics` record the derived
status is computed by the first matching rule, in order: some stage's error
list non-empty gives `error` — regardless of the validation and staging
fields; otherwise a non-empty validation issue list gives `warning`;
otherwise a zero staging-inserted count gives `skipped`; otherwise
`success`. -/
theorem TableImportMetrics.get_status_precedence (m : TableImportMetrics) :
    ((∃ p ∈ m.stage_errors, p.2 ≠ []) → m.get_status = ImportStatus.error)
    ∧ ((∀ p ∈ m.stage_errors, p.2 = []) → m.validation_issues ≠ [] →
        m.get_status = ImportStatus.warning)
    ∧ ((∀ p ∈ m.stage_errors, p.2 = []) → m.validation_issues = [] →
        m.staging_inserted = 0 → m.get_status = ImportStatus.skipped)
    ∧ ((∀ p ∈ m.stage_errors, p.2 = []) → m.validation_issues = [] →
        m.staging_inserted ≠ 0 → m.get_status = ImportStatus.success) := by
  refine ⟨?_, ?_, ?_, ?_⟩
  · rintro ⟨p, hp, hne⟩
    have hany : m.stage_errors.any (fun p => !p.2.isEmpty) = true := by
      simp only [List.any_eq_true]
      exact ⟨p, hp, by simpa using hne⟩
    have hcons : m.stage_errors.isEmpty = false := by
      cases h : m.stage_errors with
      | nil => rw [h] at hp; cases hp
      | cons a l => rfl
    simp [TableImportMetrics.get_status, hany, hcons]
  · intro hall hvi
    have hany : m.stage_errors.any (fun p => !p.2.isEmpty) = false := by
      simp only [List.any_eq_false]
      intro p hp
      simp [hall p hp]
    simp [TableImportMetrics.get_status, hany, hvi]
  · intro hall hvi hz
    have hany : m.stage_errors.any (fun p => !p.2.isEmpty) = false := by
      simp only [List.any_eq_false]
      intro p hp
      simp [hall p hp]
    simp [TableImportMetrics.get_status, hany, hvi, hz]
  · intro hall hvi hnz
    have hany : m.stage_errors.any (fun p => !p.2.isEmpty) = false := by
      simp only [List.any_eq_false]
      intro p hp
      simp [hall p hp]
    simp [TableImportMetrics.get_status, hany, hvi, hnz]

/-- Witness for C1 at concrete records: a staging-stage error forces
`error` even with validation issues and a non-zero staging count; and the
three later rules each fire on a record where the earlier ones do not. -/
theorem TableImportMetrics.get_status_precedence_witness :
    ({ table_name := "BOATS", csv_file := "boats.csv", staging_inserted := 5,
       validation_issues := ["issue"],
       stage_errors := [(ImportStage.stagingInsert, ["boom"])] } :
       TableImportMetrics).get_status = ImportStatus.error
    ∧ ({ table_name := "BOATS", csv_file := "boats.csv", staging_inserted := 0,
         validation_issues := ["issue"] } : TableImportMetrics).get_status
        = ImportStatus.warning
    ∧ ({ table_name := "BOATS", csv_file := "boats.csv",
         staging_inserted := 0 } : TableImportMetrics).get_status
        = ImportStatus.skipped
    ∧ ({ table_name := "BOATS", csv_file := "boats.csv",
         staging_inserted := 5 } : TableImportMetrics).get_status
        = ImportStatus.success := by
  refine ⟨(TableImportMetrics.get_status_precedence _).1
            ⟨(ImportStage.stagingInsert, ["boom"]), by simp, by simp⟩,
          (TableImportMetrics.get_status_precedence _).2.1 (by simp) (by simp),
          (TableImportMetrics.get_status_precedence _).2.2.1 (by simp) rfl rfl,
          (TableImportMetrics.get_status_precedence _).2.2.2 (by simp) rfl (by decide)⟩

/-- Helper for C5: folding `add_table` over any metrics list adds, to each
running total, the sum of the corresponding per-table field over the list —
one contribution per addition, regardless of table-name collisions. -/
theorem SystemImportSummary.foldl_add_table_totals
    (ms : List TableImportMetrics) (s0 : SystemImportSummary) :
    ((ms.foldl SystemImportSummary.add_table s0).total_csv_rows
        = s0.total_csv_rows + (ms.map (fun m => m.csv_row_count)).sum)
    ∧ ((ms.foldl SystemImportSummary.add_table s0).total_staging_inserted
        = s0.total_staging_inserted + (ms.map (fun m => m.staging_inserted)).sum)
    ∧ ((ms.foldl SystemImportSummary.add_table s0).total_merge_inserts
        = s0.total_merge_inserts + (ms.map (fun m => m.merge_inserted)).sum)
    ∧ ((ms.foldl SystemImportSummary.add_table s0).total_merge_updates
        = s0.total_merge_updates + (ms.map (fun m => m.merge_updated)).sum)
    ∧ ((ms.foldl SystemImportSummary.add_table s0).total_errors
        = s0.total_errors + (ms.map (fun m => m.errorTotal)).sum)
    ∧ ((ms.foldl SystemImportSummary.add_table s0).total_warnings
        = s0.total_warnings
            + (ms.map (fun m => (m.validation_issues.length : Int))).sum) := by
  induction ms generalizing s0 with
  | nil => simp
  | cons m rest ih =>
      obtain ⟨h1, h2, h3, h4, h5, h6⟩ := ih (s0.add_table m)
      simp only [SystemImportSummary.add_table] at h1 h2 h3 h4 h5 h6
      simp only [List.foldl_cons, List.map_cons, List.sum_cons,
        SystemImportSummary.add_table]
      exact ⟨by rw [h1]; ring, by rw [h2]; ring, by rw [h3]; ring,
             by rw [h4]; ring, by rw [h5]; ring, by rw [h6]; ring⟩

/-- Claim C5: starting from a fresh summary, after any sequence of table
additions every running total equals the sum of the corresponding per-table
field over all metrics ever added (each addition counted, even when a later
addition overwrites the same table-name entry); total errors is the sum of
all stage error-list lengths and total warnings the sum of the
validation-issue-list lengths. -/
theorem SystemImportSummary.add_table_totals (name : String)
    (ms : List TableImportMetrics) :
    ((ms.foldl SystemImportSummary.add_table { system_name := name }).total_csv_rows
        = (ms.map (fun m => m.csv_row_count)).sum)
    ∧ ((ms.foldl SystemImportSummary.add_table { system_name := name }).total_staging_inserted
        = (ms.map (fun m => m.staging_inserted)).sum)
    ∧ ((ms.foldl SystemImportSummary.add_table { system_name := name }).total_merge_inserts
        = (ms.map (fun m => m.merge_inserted)).sum)
    ∧ ((ms.foldl SystemImportSummary.add_table { system_name := name }).total_merge_updates
        = (ms.map (fun m => m.merge_updated)).sum)
    ∧ ((ms.foldl SystemImportSummary.add_table { system_name := name }).total_errors
        = (ms.map (fun m => m.errorTotal)).sum)
    ∧ ((ms.foldl SystemImportSummary.add_table { system_name := name }).total_warnings
        = (ms.map (fun m => (m.validation_issues.length : Int))).sum) := by
  have h := SystemImportSummary.foldl_add_table_totals ms { system_name := name }
  simpa using h

/-- Claim C6: with zero source rows, `validate_table_import` returns
`(true, [])` unconditionally — the result is the same for every data-access
capability, so no row-count, sample-id or null-id query can influence it
and no issue is emitted. -/
theorem DataValidator.validate_table_import_empty_source (db : Db)
    (staging_table dw_table id_column : String) :
    DataValidator.validate_table_import db [] staging_table dw_table id_column
      = (true, []) := rfl

/-- Claim C9: each record call made while no table-import record is open is
a silent no-op — it cannot raise (the operations are total) and returns the
tracker state unchanged: same open-record slot, same summaries, same
totals. -/
theorem DataImportLogger.record_noop_when_closed (s : DataImportLogger)
    (h : s.current_metrics = none)
    (inserted errs matched minserted mupdated merrs : Int)
    (passed : Bool) (issues : Option (List String))
    (stage : ImportStage) (msg : String) :
    s.log_staging_insert inserted errs = s
    ∧ s.log_merge_operation matched minserted mupdated merrs = s
    ∧ s.log_validation_result passed issues = s
    ∧ s.add_error stage msg = s := by
  refine ⟨?_, ?_, ?_, ?_⟩ <;>
    simp [DataImportLogger.log_staging_insert, DataImportLogger.log_merge_operation,
          DataImportLogger.log_validation_result, DataImportLogger.add_error, h]

/-- Witness for C9 on the freshly constructed tracker (no open record). -/
theorem DataImportLogger.record_noop_when_closed_witness :
    DataImportLogger.init.log_staging_insert 5 1 = DataImportLogger.init
    ∧ DataImportLogger.init.log_merge_operation 1 2 3 4 = DataImportLogger.init
    ∧ DataImportLogger.init.log_validation_result true (some ["x"]) = DataImportLogger.init
    ∧ DataImportLogger.init.add_error ImportStage.validation "boom" = DataImportLogger.init :=
  DataImportLogger.record_noop_when_closed DataImportLogger.init rfl
    5 1 1 2 3 4 true (some ["x"]) ImportStage.validation "boom"


/-- Counterexample for C10: on the fresh tracker (no open record),
`end_table_import` with the unknown system name `"NEPTUNE"` returns
silently — no `ValueError` is raised — contradicting the claim that
`endTable` raises for every unknown system identifier. -/
theorem DataImportLogger.end_table_unknown_no_raise_cex :
    pyUpper "NEPTUNE" ≠ "MOLO"
    ∧ pyUpper "NEPTUNE" ≠ "STELLAR"
    ∧ DataImportLogger.init.end_table_import "NEPTUNE" 7
        = (Except.ok (), DataImportLogger.init) :=
  ⟨by decide, by decide, rfl⟩

/-- Claim C10 (amended): `startRun` and `endRun` raise `ValueError` and
leave the state unchanged for any system identifier whose upper-casing is
neither `"MOLO"` nor `"STELLAR"`; `endTable` with such an identifier raises
only when a record is open — and then the open record's end timestamp has
already been set (the record is neither folded in nor cleared) — while with
no open record it returns silently without raising; `startTable` ignores
its system identifier entirely and opens a record (discarding any open one)
even for an unknown system. -/
theorem DataImportLogger.system_lookup_amended (s : DataImportLogger)
    (system_name : String)
    (h : pyUpper system_name ≠ "MOLO" ∧ pyUpper system_name ≠ "STELLAR")
    (now : Nat) :
    (s.start_system_import system_name now
        = (Except.error ("Unknown system: " ++ system_name), s))
    ∧ (s.end_system_import system_name now
        = (Except.error ("Unknown system: " ++ system_name), s))
    ∧ (s.current_metrics = none →
        s.end_table_import system_name now = (Except.ok (), s))
    ∧ (∀ m, s.current_metrics = some m →
        s.end_table_import system_name now
          = (Except.error ("Unknown system: " ++ system_name),
             { s with current_metrics := some { m with end_time := some now } }))
    ∧ (∀ sys2 table_name csv_file cnt,
        s.start_table_import sys2 table_name csv_file cnt now
          = { s with
              current_metrics := some { table_name := table_name
                                        csv_file := csv_file
                                        csv_row_count := cnt
                                        start_time := some now } }) := by
  have hg : DataImportLogger.get_summary system_name
      = Except.error ("Unknown system: " ++ system_name) := by
    unfold DataImportLogger.get_summary
    rw [if_neg h.1, if_neg h.2]
  refine ⟨?_, ?_, ?_, ?_, ?_⟩
  · simp [DataImportLogger.start_system_import, hg]
  · simp [DataImportLogger.end_system_import, hg]
  · intro hm
    simp [DataImportLogger.end_table_import, hm]
  · intro m hm
    simp [DataImportLogger.end_table_import, hm, hg]
  · intro sys2 table_name csv_file cnt
    rfl

/-- Witness for C10 (amended) at `"NEPTUNE"`: `startRun` raises on the
fresh tracker leaving it unchanged; `endTable` on the fresh tracker does
not raise; `startTable` succeeds despite the unknown system; and after it,
`endTable` raises leaving the record open with its end timestamp set. -/
theorem DataImportLogger.system_lookup_amended_witness :
    (DataImportLogger.init.start_system_import "NEPTUNE" 3
        = (Except.error ("Unknown system: " ++ "NEPTUNE"), DataImportLogger.init))
    ∧ (DataImportLogger.init.end_table_import "NEPTUNE" 3
        = (Except.ok (), DataImportLogger.init))
    ∧ (DataImportLogger.init.start_table_import "NEPTUNE" "BOATS" "boats.csv" 10 3
        = { DataImportLogger.init with
            current_metrics := some { table_name := "BOATS"
                                      csv_file := "boats.csv"
                                      csv_row_count := 10
                                      start_time := some 3 } })
    ∧ ((DataImportLogger.init.start_table_import "NEPTUNE" "BOATS" "boats.csv" 10 3).end_table_import
          "NEPTUNE" 4
        = (Except.error ("Unknown system: " ++ "NEPTUNE"),
           { DataImportLogger.init with
             current_metrics := some { table_name := "BOATS"
                                       csv_file := "boats.csv"
                                       csv_row_count := 10
                                       start_time := some 3
                                       end_time := some 4 } })) := by
  have hu : pyUpper "NEPTUNE" ≠ "MOLO" ∧ pyUpper "NEPTUNE" ≠ "STELLAR" :=
    ⟨by decide, by decide⟩
  refine ⟨(DataImportLogger.system_lookup_amended DataImportLogger.init "NEPTUNE" hu 3).1,
          (DataImportLogger.system_lookup_amended DataImportLogger.init "NEPTUNE" hu 3).2.2.1 rfl,
          (DataImportLogger.system_lookup_amended DataImportLogger.init "NEPTUNE" hu 3).2.2.2.2
            "NEPTUNE" "BOATS" "boats.csv" 10,
          ?_⟩
  have h := (DataImportLogger.system_lookup_amended
      (DataImportLogger.init.start_table_import "NEPTUNE" "BOATS" "boats.csv" 10 3)
      "NEPTUNE" hu 4).2.2.2.1
      { table_name := "BOATS", csv_file := "boats.csv",
        csv_row_count := 10, start_time := some 3 } rfl
  simpa using h

/-- Helper for C2: in the row-by-row fallback the success and error counts
always sum to the number of rows attempted. -/
theorem ErrorHandler.insert_row_by_row_count {α : Type} (operation : InsertOp α)
    (rows : List α) :
    (ErrorHandler.insert_row_by_row operation rows).1.1
      + (ErrorHandler.insert_row_by_row operation rows).1.2 = rows.length := by
  induction rows with
  | nil => rfl
  | cons r rest ih =>
      simp only [ErrorHandler.insert_row_by_row]
      cases h : operation [r] with
      | ok _ => simp [h]; omega
      | error _ => simp [h]; omega

/-- Helper for C2: the fallback attempts every row as its own one-row
batch, in order, whatever the outcomes — a failing row never aborts the
remaining rows. -/
theorem ErrorHandler.insert_row_by_row_trace {α : Type} (operation : InsertOp α)
    (rows : List α) :
    (ErrorHandler.insert_row_by_row operation rows).2
      = rows.map (fun r => [r]) := by
  induction rows with
  | nil => rfl
  | cons r rest ih =>
      simp only [ErrorHandler.insert_row_by_row]
      cases h : operation [r] with
      | ok _ => simp [h, ih]
      | error _ => simp [h, ih]

/-- Claim C2: the staging-insert handler returns `(0, 0)` on an empty batch
without invoking the operation; on a non-empty batch whose single bulk call
succeeds it returns `(batch size, 0)` with the bulk call as the only
invocation; and when the bulk call raises an expected data-access failure
it retries every row independently (one one-row batch per row, none
skipped) and returns `(successes, errors)` summing to the batch size. -/
theorem ErrorHandler.handle_staging_insert_spec {α : Type}
    (table_name : String) (operation : InsertOp α) (data_rows : List α) :
    (data_rows = [] →
      ErrorHandler.handle_staging_insert table_name operation data_rows
        = (Except.ok (0, 0), []))
    ∧ (data_rows ≠ [] → operation data_rows = Except.ok () →
      ErrorHandler.handle_staging_insert table_name operation data_rows
        = (Except.ok (data_rows.length, 0), [data_rows]))
    ∧ (∀ msg, data_rows ≠ [] →
        operation data_rows = Except.error (DbFault.databaseError msg) →
        (ErrorHandler.handle_staging_insert table_name operation data_rows).2
            = data_rows :: data_rows.map (fun r => [r])
        ∧ ∃ succ err,
            (ErrorHandler.handle_staging_insert table_name operation data_rows).1
              = Except.ok (succ, err)
            ∧ succ + err = data_rows.length) := by
  refine ⟨?_, ?_, ?_⟩
  · rintro rfl
    rfl
  · intro h1 h2
    have hne : data_rows.isEmpty = false := by
      cases data_rows with
      | nil => exact absurd rfl h1
      | cons a l => rfl
    simp [ErrorHandler.handle_staging_insert, hne, h2]
  · intro msg h1 h3
    have hne : data_rows.isEmpty = false := by
      cases data_rows with
      | nil => exact absurd rfl h1
      | cons a l => rfl
    refine ⟨?_, (ErrorHandler.insert_row_by_row operation data_rows).1.1,
            (ErrorHandler.insert_row_by_row operation data_rows).1.2, ?_, ?_⟩
    · simp [ErrorHandler.handle_staging_insert, hne, h3,
            ErrorHandler.insert_row_by_row_trace]
    · simp [ErrorHandler.handle_staging_insert, hne, h3]
    · exact ErrorHandler.insert_row_by_row_count operation data_rows

/-- Insert operation that always succeeds. -/
def opAlwaysOk : InsertOp Nat := fun _ => Except.ok ()

/-- Insert operation raising the expected data-access failure on batches of
two or more rows and succeeding on single rows. -/
def opBulkDbErr : InsertOp Nat := fun rows =>
  if rows.length ≥ 2 then Except.error (DbFault.databaseError "ORA-01400") else Except.ok ()

/-- Witness for C2 at concrete batches: empty batch, successful bulk, and a
bulk expected failure followed by the per-row fallback. -/
theorem ErrorHandler.handle_staging_insert_spec_witness :
    ErrorHandler.handle_staging_insert "STG_BOATS" opAlwaysOk ([] : List Nat)
      = (Except.ok (0, 0), [])
    ∧ ErrorHandler.handle_staging_insert "STG_BOATS" opAlwaysOk [1, 2]
      = (Except.ok ([1, 2].length, 0), [[1, 2]])
    ∧ ((ErrorHandler.handle_staging_insert "STG_BOATS" opBulkDbErr [1, 2, 3]).2
        = [1, 2, 3] :: [1, 2, 3].map (fun r => [r])
      ∧ ∃ succ err,
          (ErrorHandler.handle_staging_insert "STG_BOATS" opBulkDbErr [1, 2, 3]).1
            = Except.ok (succ, err)
          ∧ succ + err = [1, 2, 3].length) :=
  ⟨(ErrorHandler.handle_staging_insert_spec "STG_BOATS" opAlwaysOk []).1 rfl,
   (ErrorHandler.handle_staging_insert_spec "STG_BOATS" opAlwaysOk [1, 2]).2.1
     (by decide) rfl,
   (ErrorHandler.handle_staging_insert_spec "STG_BOATS" opBulkDbErr [1, 2, 3]).2.2
     "ORA-01400" (by decide) rfl⟩

/-- Claim C4: on a non-empty batch whose bulk attempt raises a fault that
is not an expected data-access failure, the handler performs no row-by-row
fallback (the bulk call stays the only invocation) and raises a fatal
staging-insert error wrapping the fault — no `(success, error)` pair is
returned. -/
theorem ErrorHandler.handle_staging_insert_unexpected_fatal {α : Type}
    (table_name : String) (operation : InsertOp α) (data_rows : List α)
    (msg : String) (h1 : data_rows ≠ [])
    (h2 : operation data_rows = Except.error (DbFault.unexpected msg)) :
    ErrorHandler.handle_staging_insert table_name operation data_rows
      = (Except.error ("Failed to insert into " ++ table_name ++ ": " ++ msg),
         [data_rows]) := by
  have hne : data_rows.isEmpty = false := by
    cases data_rows with
    | nil => exact absurd rfl h1
    | cons a l => rfl
  simp [ErrorHandler.handle_staging_insert, hne, h2]

/-- Insert operation that always raises an unexpected (non-data-access)
fault. -/
def opAlwaysUnexpected : InsertOp Nat := fun _ =>
  Except.error (DbFault.unexpected "TypeError")

/-- Witness for C4 at a concrete one-row batch. -/
theorem ErrorHandler.handle_staging_insert_unexpected_fatal_witness :
    ErrorHandler.handle_staging_insert "STG_SLIPS" opAlwaysUnexpected [7]
      = (Except.error ("Failed to insert into " ++ "STG_SLIPS" ++ ": " ++ "TypeError"),
         [[7]]) :=
  ErrorHandler.handle_staging_insert_unexpected_fatal "STG_SLIPS"
    opAlwaysUnexpected [7] "TypeError" (by decide) rfl

/-- Claim C3: the merge executor turns an expected data-access failure into
the returned structured failure result (matched, inserted, updated all `0`,
errors `1`, success `false`, carrying the failure message) with a rollback
and no commit; it re-raises any other fault as a fatal merge error, also
after a rollback; and it raises exactly when the fault is not an expected
data-access failure. -/
theorem ErrorHandler.handle_merge_operation_spec (procedure_name : String)
    (table_name : Option String) (mergeExec : Except DbFault Int) :
    (∀ msg, mergeExec = Except.error (DbFault.databaseError msg) →
      ErrorHandler.handle_merge_operation procedure_name table_name mergeExec
        = (Except.ok { matched := 0, inserted := 0, updated := 0, errors := 1,
                       success := false, error_message := some msg },
           [DbAction.rollback]))
    ∧ (∀ msg, mergeExec = Except.error (DbFault.unexpected msg) →
      ErrorHandler.handle_merge_operation procedure_name table_name mergeExec
        = (Except.error ("Failed to merge "
              ++ ErrorHandler.mergeDisplayName procedure_name table_name
              ++ ": " ++ msg),
           [DbAction.rollback]))
    ∧ ((∃ e, (ErrorHandler.handle_merge_operation procedure_name table_name mergeExec).1
          = Except.error e)
        ↔ ∃ msg, mergeExec = Except.error (DbFault.unexpected msg)) := by
  refine ⟨?_, ?_, ?_⟩
  · rintro msg rfl
    rfl
  · rintro msg rfl
    rfl
  · cases mergeExec with
    | ok n => simp [ErrorHandler.handle_merge_operation]
    | error f => cases f <;> simp [ErrorHandler.handle_merge_operation]

/-- Witness for C3 at a concrete expected failure and a concrete unexpected
fault. -/
theorem ErrorHandler.handle_merge_operation_spec_witness :
    ErrorHandler.handle_merge_operation "SP_MERGE_BOATS" (some "BOATS")
        (Except.error (DbFault.databaseError "ORA-00001"))
      = (Except.ok { matched := 0, inserted := 0, updated := 0, errors := 1,
                     success := false, error_message := some "ORA-00001" },
         [DbAction.rollback])
    ∧ ErrorHandler.handle_merge_operation "SP_MERGE_BOATS" (some "BOATS")
        (Except.error (DbFault.unexpected "RuntimeError"))
      = (Except.error ("Failed to merge "
            ++ ErrorHandler.mergeDisplayName "SP_MERGE_BOATS" (some "BOATS")
            ++ ": " ++ "RuntimeError"),
         [DbAction.rollback]) :=
  ⟨(ErrorHandler.handle_merge_operation_spec "SP_MERGE_BOATS" (some "BOATS")
      (Except.error (DbFault.databaseError "ORA-00001"))).1 "ORA-00001" rfl,
   (ErrorHandler.handle_merge_operation_spec "SP_MERGE_BOATS" (some "BOATS")
      (Except.error (DbFault.unexpected "RuntimeError"))).2.1 "RuntimeError" rfl⟩

/-- Counterexample for C7: with a capability whose count queries raise,
merge validation (no expected counts supplied) returns `(true, [])` — the
exception inside the row-count helper is swallowed into a `0` default and
is *not* converted into an issue message appended to the returned issue
list with `passed = false`. -/
theorem DataValidator.swallowed_exception_cex :
    Db.raising.rowCount "STG_MOLO_BOATS"
      = Except.error "ORA-00942: table or view does not exist"
    ∧ DataValidator.validate_merge_operation Db.raising
        "STG_MOLO_BOATS" "DW_MOLO_BOATS" none none = (true, []) :=
  ⟨rfl, rfl⟩

/-- Claim C7 (amended): no exception propagates past the validator's
boundary (every check is a total function of the query outcomes), and the
referential-integrity check — whose query runs directly under its own
handler — does convert an exception into a single issue with
`passed = false`; but an exception inside the helper queries used by the
table-import and merge checks is swallowed into a default value (`0` row
count, `0` null-id count, `[]` missing ids) without any issue being
appended — in particular a merge validation whose two count queries both
raise returns `(true, [])`. -/
theorem DataValidator.exception_handling_amended (db : Db) :
    (∀ c p fk pk e, db.refOrphanCount c p fk pk = Except.error e →
      DataValidator.check_referential_integrity db c p fk pk
        = (false, [riExcMsg e]))
    ∧ (∀ t e, db.rowCount t = Except.error e →
        DataValidator.get_row_count db t = 0)
    ∧ (∀ t col ids e, db.idsFound t col ids = Except.error e →
        DataValidator.check_ids_exist db t col ids = [])
    ∧ (∀ t col e, db.nullIdCount t col = Except.error e →
        DataValidator.count_null_ids db t col = 0)
    ∧ (∀ stg dw e1 e2,
        db.rowCount stg = Except.error e1 → db.rowCount dw = Except.error e2 →
        DataValidator.validate_merge_operation db stg dw none none
          = (true, [])) := by
  refine ⟨?_, ?_, ?_, ?_, ?_⟩
  · intro c p fk pk e h
    simp [DataValidator.check_referential_integrity, h]
  · intro t e h
    simp [DataValidator.get_row_count, h]
  · intro t col ids e h
    simp [DataValidator.check_ids_exist, h]
  · intro t col e h
    simp [DataValidator.count_null_ids, h]
  · intro stg dw e1 e2 h1 h2
    simp [DataValidator.validate_merge_operation, DataValidator.get_row_count,
          h1, h2]

/-- Witness for C7 (amended) on the always-raising capability. -/
theorem DataValidator.exception_handling_amended_witness :
    DataValidator.check_referential_integrity Db.raising "C" "P" "FK" "ID"
      = (false, [riExcMsg "ORA-00942: table or view does not exist"])
    ∧ DataValidator.get_row_count Db.raising "T" = 0
    ∧ DataValidator.check_ids_exist Db.raising "T" "ID" ["1"] = []
    ∧ DataValidator.count_null_ids Db.raising "T" "ID" = 0
    ∧ DataValidator.validate_merge_operation Db.raising "S" "D" none none
      = (true, []) :=
  ⟨(DataValidator.exception_handling_amended Db.raising).1 "C" "P" "FK" "ID" _ rfl,
   (DataValidator.exception_handling_amended Db.raising).2.1 "T" _ rfl,
   (DataValidator.exception_handling_amended Db.raising).2.2.1 "T" "ID" ["1"] _ rfl,
   (DataValidator.exception_handling_amended Db.raising).2.2.2.1 "T" "ID" _ rfl,
   (DataValidator.exception_handling_amended Db.raising).2.2.2.2 "S" "D" _ _ rfl rfl⟩

/-- Claim C8: over any concrete child/parent table contents, the
referential-integrity check reports the orphan count — the number of child
rows whose foreign-key value is non-null and matches no parent key
(`orphanCount`, the denotation of the query the check issues): a zero count
yields `(true, [])` and a nonzero count yields `(false, [issue])` whose
single issue reports that count. -/
theorem DataValidator.check_referential_integrity_spec
    (childFks : List (Option String)) (parentKeys : List String)
    (child_table parent_table foreign_key parent_key : String) :
    (orphanCount childFks parentKeys = 0 →
      DataValidator.check_referential_integrity (Db.ofTables childFks parentKeys)
          child_table parent_table foreign_key parent_key = (true, []))
    ∧ (orphanCount childFks parentKeys ≠ 0 →
      DataValidator.check_referential_integrity (Db.ofTables childFks parentKeys)
          child_table parent_table foreign_key parent_key
        = (false, [orphanMsg (orphanCount childFks parentKeys)
                     child_table foreign_key parent_table parent_key])) := by
  constructor
  · intro h
    simp [DataValidator.check_referential_integrity, Db.ofTables, h]
  · intro h
    have hpos : (0 : Int) < (orphanCount childFks parentKeys : Int) := by
      exact_mod_cast Nat.pos_of_ne_zero h
    simp [DataValidator.check_referential_integrity, Db.ofTables, hpos,
          not_le_of_gt hpos]

/-- Witness for C8: a child table with no orphan passes; one with a single
orphaned foreign key (`"9"` absent from the parent keys) yields exactly the
one issue reporting count 1. -/
theorem DataValidator.check_referential_integrity_spec_witness :
    DataValidator.check_referential_integrity
        (Db.ofTables [some "1", none] ["1"]) "SLIPS" "BOATS" "BOAT_ID" "ID"
      = (true, [])
    ∧ DataValidator.check_referential_integrity
        (Db.ofTables [some "1", some "9", none, some "2"] ["1", "2", "3"])
        "SLIPS" "BOATS" "BOAT_ID" "ID"
      = (false, [orphanMsg (orphanCount [some "1", some "9", none, some "2"]
                   ["1", "2", "3"]) "SLIPS" "BOAT_ID" "BOATS" "ID"]) :=
  ⟨(DataValidator.check_referential_integrity_spec [some "1", none] ["1"]
      "SLIPS" "BOATS" "BOAT_ID" "ID").1 (by decide),
   (DataValidator.check_referential_integrity_spec
      [some "1", some "9", none, some "2"] ["1", "2", "3"]
      "SLIPS" "BOATS" "BOAT_ID" "ID").2 (by decide)⟩
